import Mathlib

set_option maxRecDepth 100000

/-!
# Verification of the tekno-logger ingestion service

Shallow embedding of the core subsystems of the tekno-logger repository:
the cryptographic helpers used by authentication (`src/middleware/auth.ts`,
`src/routes/logs.ts`), the ingestion pipeline (`src/routes/logs.ts`), the
two-tier rate limiter (`src/middleware/rateLimit.ts`), the store helpers
(`src/services/database.ts`), and the self-triggered maintenance scheduler.

Machine integers are modelled as `Nat` with explicit reduction modulo `2^32`
where the source relies on 32-bit wraparound (inside SHA-1 / SHA-256).
Node `Buffer`s are modelled as `List Nat` of byte values; fallible library
calls (`crypto.timingSafeEqual`, database queries) are modelled with
`Except`.
-/

namespace TeknoLogger

/-! ## 32-bit words and byte sequences -/

/-- `2^32`, the modulus for 32-bit word arithmetic. -/
def M32 : Nat := 4294967296

/-- Truncate to a 32-bit word. -/
def w32 (x : Nat) : Nat := x % M32

/-- Rotate a 32-bit word left by `n` bits (for `x < 2^32`, `n ≤ 32`). -/
def rotl (n x : Nat) : Nat := ((x <<< n) % M32) ||| (x >>> (32 - n))

/-- Rotate a 32-bit word right by `n` bits (for `x < 2^32`, `n ≤ 32`). -/
def rotr (n x : Nat) : Nat := (x >>> n) ||| ((x <<< (32 - n)) % M32)

/-- Bitwise complement of a 32-bit word. -/
def not32 (x : Nat) : Nat := x ^^^ 4294967295

/-- Big-endian packing of bytes into 32-bit words (length a multiple of 4). -/
def toWordsBE : List Nat → List Nat
  | b0 :: b1 :: b2 :: b3 :: rest =>
      (b0 * 16777216 + b1 * 65536 + b2 * 256 + b3) :: toWordsBE rest
  | _ => []

/-- Big-endian unpacking of a 32-bit word into 4 bytes. -/
def wordToBytesBE (w : Nat) : List Nat :=
  [(w >>> 24) % 256, (w >>> 16) % 256, (w >>> 8) % 256, w % 256]

/-- The 8-byte big-endian encoding of a 64-bit length value. -/
def lenBytes64 (n : Nat) : List Nat :=
  [(n >>> 56) % 256, (n >>> 48) % 256, (n >>> 40) % 256, (n >>> 32) % 256,
   (n >>> 24) % 256, (n >>> 16) % 256, (n >>> 8) % 256, n % 256]

/-- Merkle–Damgård padding shared by SHA-1 and SHA-256: append `0x80`, zero
bytes up to 56 mod 64, then the bit length as 8 big-endian bytes. -/
def padMessage (msg : List Nat) : List Nat :=
  let len := msg.length
  let zeros := (119 - len % 64) % 64
  msg ++ [128] ++ List.replicate zeros 0 ++ lenBytes64 (8 * len)

/-- Split a word list into blocks of 16 words (the padded input is always a
multiple of 16 words; a short trailing block is passed through unchanged). -/
def chunk16 : List Nat → List (List Nat)
  | a1 :: a2 :: a3 :: a4 :: a5 :: a6 :: a7 :: a8 ::
    a9 :: a10 :: a11 :: a12 :: a13 :: a14 :: a15 :: a16 :: rest =>
      [a1, a2, a3, a4, a5, a6, a7, a8, a9, a10, a11, a12, a13, a14, a15, a16] ::
        chunk16 rest
  | [] => []
  | l => [l]

/-! ## SHA-1 (as provided by Node `crypto.createHash('sha1')`) -/

/-- SHA-1 round constant. -/
def sha1K (i : Nat) : Nat :=
  if i < 20 then 1518500249
  else if i < 40 then 1859775393
  else if i < 60 then 2400959708
  else 3395469782

/-- SHA-1 round function. -/
def sha1F (i b c d : Nat) : Nat :=
  if i < 20 then (b &&& c) ||| (not32 b &&& d)
  else if i < 40 then b ^^^ c ^^^ d
  else if i < 60 then (b &&& c) ||| (b &&& d) ||| (c &&& d)
  else b ^^^ c ^^^ d

/-- Expand a 16-word block into the 80-word SHA-1 message schedule. -/
def sha1Schedule (block : List Nat) : List Nat :=
  (List.range 64).foldl
    (fun acc _ =>
      let i := acc.length
      acc ++ [rotl 1 ((acc.getD (i - 3) 0 ^^^ acc.getD (i - 8) 0) ^^^
                      (acc.getD (i - 14) 0 ^^^ acc.getD (i - 16) 0))])
    block

/-- One SHA-1 compression step over a 16-word block. -/
def sha1Compress (h : List Nat) (block : List Nat) : List Nat :=
  let w := sha1Schedule block
  let st := w.enum.foldl
    (fun (st : Nat × Nat × Nat × Nat × Nat) (iw : Nat × Nat) =>
      let (a, b, c, d, e) := st
      let t := w32 (rotl 5 a + sha1F iw.1 b c d + e + sha1K iw.1 + iw.2)
      (t, a, rotl 30 b, c, d))
    (h.getD 0 0, h.getD 1 0, h.getD 2 0, h.getD 3 0, h.getD 4 0)
  [w32 (h.getD 0 0 + st.1), w32 (h.getD 1 0 + st.2.1), w32 (h.getD 2 0 + st.2.2.1),
   w32 (h.getD 3 0 + st.2.2.2.1), w32 (h.getD 4 0 + st.2.2.2.2)]

/-- SHA-1 digest of a byte sequence. -/
def sha1Bytes (msg : List Nat) : List Nat :=
  let blocks := chunk16 (toWordsBE (padMessage msg))
  let h := blocks.foldl sha1Compress
    [1732584193, 4023233417, 2562383102, 271733878, 3285377520]
  (h.map wordToBytesBE).flatten

/-! ## SHA-256 (as provided by Node `crypto.createHash('sha256')`) -/

/-- The 64 SHA-256 round constants. -/
def sha256K : List Nat :=
  [1116352408, 1899447441, 3049323471, 3921009573, 961987163,
   1508970993, 2453635748, 2870763221, 3624381080, 310598401,
   607225278, 1426881987, 1925078388, 2162078206, 2614888103,
   3248222580, 3835390401, 4022224774, 264347078, 604807628,
   770255983, 1249150122, 1555081692, 1996064986, 2554220882,
   2821834349, 2952996808, 3210313671, 3336571891, 3584528711,
   113926993, 338241895, 666307205, 773529912, 1294757372,
   1396182291, 1695183700, 1986661051, 2177026350, 2456956037,
   2730485921, 2820302411, 3259730800, 3345764771, 3516065817,
   3600352804, 4094571909, 275423344, 430227734, 506948616,
   659060556, 883997877, 958139571, 1322822218, 1537002063,
   1747873779, 1955562222, 2024104815, 2227730452, 2361852424,
   2428436474, 2756734187, 3204031479, 3329325298]

/-- Expand a 16-word block into the 64-word SHA-256 message schedule. -/
def sha256Schedule (block : List Nat) : List Nat :=
  (List.range 48).foldl
    (fun acc _ =>
      let i := acc.length
      let w15 := acc.getD (i - 15) 0
      let w2 := acc.getD (i - 2) 0
      let s0 := rotr 7 w15 ^^^ rotr 18 w15 ^^^ (w15 >>> 3)
      let s1 := rotr 17 w2 ^^^ rotr 19 w2 ^^^ (w2 >>> 10)
      acc ++ [w32 (acc.getD (i - 16) 0 + s0 + acc.getD (i - 7) 0 + s1)])
    block

/-- One SHA-256 compression step over a 16-word block. -/
def sha256Compress (h : List Nat) (block : List Nat) : List Nat :=
  let w := sha256Schedule block
  let st := (w.zip sha256K).foldl
    (fun (st : Nat × Nat × Nat × Nat × Nat × Nat × Nat × Nat) (wk : Nat × Nat) =>
      let (a, b, c, d, e, f, g, hh) := st
      let s1 := rotr 6 e ^^^ rotr 11 e ^^^ rotr 25 e
      let ch := (e &&& f) ^^^ (not32 e &&& g)
      let t1 := w32 (hh + s1 + ch + wk.2 + wk.1)
      let s0 := rotr 2 a ^^^ rotr 13 a ^^^ rotr 22 a
      let maj := (a &&& b) ^^^ (a &&& c) ^^^ (b &&& c)
      let t2 := w32 (s0 + maj)
      (w32 (t1 + t2), a, b, c, w32 (d + t1), e, f, g))
    (h.getD 0 0, h.getD 1 0, h.getD 2 0, h.getD 3 0,
     h.getD 4 0, h.getD 5 0, h.getD 6 0, h.getD 7 0)
  [w32 (h.getD 0 0 + st.1), w32 (h.getD 1 0 + st.2.1),
   w32 (h.getD 2 0 + st.2.2.1), w32 (h.getD 3 0 + st.2.2.2.1),
   w32 (h.getD 4 0 + st.2.2.2.2.1), w32 (h.getD 5 0 + st.2.2.2.2.2.1),
   w32 (h.getD 6 0 + st.2.2.2.2.2.2.1), w32 (h.getD 7 0 + st.2.2.2.2.2.2.2)]

/-- SHA-256 digest of a byte sequence. -/
def sha256Bytes (msg : List Nat) : List Nat :=
  let blocks := chunk16 (toWordsBE (padMessage msg))
  let h := blocks.foldl sha256Compress
    [1779033703, 3144134277, 1013904242, 2773480762,
     1359893119, 2600822924, 528734635, 1541459225]
  (h.map wordToBytesBE).flatten

/-- HMAC-SHA-256 over byte sequences (Node `crypto.createHmac('sha256', key)`),
with the standard 64-byte block treatment of the key. -/
def hmacSha256 (key msg : List Nat) : List Nat :=
  let k0 := if key.length > 64 then sha256Bytes key else key
  let kp := k0 ++ List.replicate (64 - k0.length) 0
  let ipadKey := kp.map (fun b => b ^^^ 54)
  let opadKey := kp.map (fun b => b ^^^ 92)
  sha256Bytes (opadKey ++ sha256Bytes (ipadKey ++ msg))

/-! ## Hex and UTF-8 encoding -/

/-- Lowercase hex digit for a value below 16 (`digest('hex')` output alphabet). -/
def hexDigitChar (n : Nat) : Char :=
  if n < 10 then Char.ofNat (48 + n) else Char.ofNat (87 + n)

/-- Two lowercase hex characters of one byte. -/
def byteToHex (b : Nat) : List Char := [hexDigitChar (b / 16), hexDigitChar (b % 16)]

/-- Lowercase hex string of a byte sequence, as produced by `digest('hex')`. -/
def bytesToHex (l : List Nat) : String := String.mk ((l.map byteToHex).flatten)

/-- UTF-8 encoding of one character. -/
def utf8EncodeChar (c : Char) : List Nat :=
  let n := c.toNat
  if n < 128 then [n]
  else if n < 2048 then [192 ||| (n >>> 6), 128 ||| (n &&& 63)]
  else if n < 65536 then
    [224 ||| (n >>> 12), 128 ||| ((n >>> 6) &&& 63), 128 ||| (n &&& 63)]
  else
    [240 ||| (n >>> 18), 128 ||| ((n >>> 12) &&& 63),
     128 ||| ((n >>> 6) &&& 63), 128 ||| (n &&& 63)]

/-- UTF-8 encoding of a string (Node treats string hash input as UTF-8). -/
def utf8Encode (s : String) : List Nat := (s.data.map utf8EncodeChar).flatten

/-- `createHash('sha1').update(s, 'utf8').digest('hex')`. -/
def sha1Hex (s : String) : String := bytesToHex (sha1Bytes (utf8Encode s))

/-- `createHash('sha256').update(s).digest('hex')`. -/
def sha256Hex (s : String) : String := bytesToHex (sha256Bytes (utf8Encode s))

/-! ## Node `Buffer.from(—, 'hex')` and `crypto.timingSafeEqual`

`Buffer.from(s, 'hex')` decodes hex pairs case-insensitively and stops at the
first character pair that is not two hex digits (a trailing lone digit is
dropped, an invalid character truncates the result). `timingSafeEqual(a, b)`
throws a `RangeError` when the two buffers have different byte lengths and
otherwise returns whether they are byte-for-byte equal; the throwing case is
modelled as `Except.error`. -/

/-- Value of one hex digit, case-insensitive, as Node buffer decoding sees it. -/
def hexDigitVal? (c : Char) : Option Nat :=
  if 48 ≤ c.toNat ∧ c.toNat ≤ 57 then some (c.toNat - 48)
  else if 97 ≤ c.toNat ∧ c.toNat ≤ 102 then some (c.toNat - 87)
  else if 65 ≤ c.toNat ∧ c.toNat ≤ 70 then some (c.toNat - 55)
  else none

/-- Hex decoding of a character list, two digits per byte, stopping at the
first invalid pair (Node `Buffer` hex semantics). -/
def hexDecodeChars : List Char → List Nat
  | c1 :: c2 :: rest =>
      match hexDigitVal? c1, hexDigitVal? c2 with
      | some hi, some lo => (16 * hi + lo) :: hexDecodeChars rest
      | _, _ => []
  | _ => []

/-- `Buffer.from(s, 'hex')` as a byte list. -/
def bufferFromHex (s : String) : List Nat := hexDecodeChars s.data

/-- `crypto.timingSafeEqual`: `RangeError` on length mismatch, byte equality
otherwise. -/
def timingSafeEqual (a b : List Nat) : Except Unit Bool :=
  if a.length ≠ b.length then .error () else .ok (a == b)

/-! ## Authenticator helpers (`src/middleware/auth.ts`) -/

/-- `calculateHmacSignature` (auth.ts line 211): lowercase-hex
HMAC-SHA-256 of `data` under `secret`, both read as UTF-8. -/
def calculateHmacSignature (data secret : String) : String :=
  bytesToHex (hmacSha256 (utf8Encode secret) (utf8Encode data))

/-- `validateHmacSignature` (auth.ts line 230): compares the candidate
signature to the computed digest with `timingSafeEqual` over hex-decoded
buffers, catching any thrown error and returning `false` for it. -/
def validateHmacSignature (data signature secret : String) : Bool :=
  let expectedSignature := calculateHmacSignature data secret
  match timingSafeEqual (bufferFromHex signature) (bufferFromHex expectedSignature) with
  | .ok r => r
  | .error _ => false

/-! ## Ingestion domain model (`src/types/index.ts`, `src/routes/logs.ts`) -/

/-- The five log levels of `logLevelSchema`. -/
inductive LogLevel
  | debug
  | info
  | warn
  | error
  | fatal
  deriving DecidableEq, Repr

/-- Free-form JSON `ctx` object; only its optional `stack` member is ever
inspected by the pipeline, the remaining entries ride along opaquely. -/
structure LogCtx where
  stack : Option String := none
  otherEntries : List (String × String) := []
  deriving DecidableEq, Repr

/-- A wall-clock timestamp broken into the local-time components that
`Date.getFullYear / getMonth / getDate` expose (month already 1-based,
as `getMonth() + 1` produces). -/
structure DateTime where
  year : Nat
  month : Nat
  day : Nat
  hour : Nat := 0
  minute : Nat := 0
  second : Nat := 0
  deriving DecidableEq, Repr

/-- An in-flight log event (`LogEvent` interface / `logEventSchema`). -/
structure LogEvent where
  ts : Option String := none
  level : LogLevel
  message : String
  source : Option String := none
  env : Option String := none
  ctx : Option LogCtx := none
  user_id : Option String := none
  request_id : Option String := none
  tags : Option String := none
  deriving DecidableEq, Repr

/-- The `ts` column value: either `new Date(event.ts)` — kept as the
unparsed ISO text, date parsing being a library concern — or the server
receive time. -/
inductive TsValue
  | parsed (iso : String)
  | received (t : DateTime)
  deriving DecidableEq, Repr

/-- A materialised row of the `logs` table (output of `processLogEvents`). -/
structure LogRow where
  project_id : Nat
  ts : TsValue
  level : LogLevel
  message : String
  source : String
  env : String
  context : Option LogCtx
  user_id : Option String
  request_id : Option String
  tags : Option String
  fingerprint : String
  day_id : Nat
  created_at : DateTime
  deriving DecidableEq, Repr

/-- A row of the `projects` table as the ingest path reads it. -/
structure Project where
  id : Nat
  slug : String
  name : String
  deriving DecidableEq, Repr

/-- `s.substring(0, n)`: the first `n` characters of `s` (all of `s` when it
is shorter). -/
def strTake (s : String) (n : Nat) : String := String.mk (s.data.take n)

/-- JavaScript `a || b` for an optional string: `undefined` and the empty
string are both falsy. -/
def jsOrString (a : Option String) (b : String) : String :=
  match a with
  | some s => if s = "" then b else s
  | none => b

/-- JavaScript `a?.substring(0, n) || null`: `undefined` and an empty
truncation both collapse to `null`. -/
def jsTruncOpt (a : Option String) (n : Nat) : Option String :=
  match a with
  | some s => if strTake s n = "" then none else some (strTake s n)
  | none => none

/-- `calculateLogFingerprint` (logs.ts line 294): first 16 hex characters of
the SHA-1 of `message`, `source || ''` and `ctx?.stack || ''` joined
with a pipe. -/
def calculateLogFingerprint (event : LogEvent) : String :=
  let fingerprintData := String.intercalate "|"
    [event.message, jsOrString event.source "", jsOrString (event.ctx.bind LogCtx.stack) ""]
  strTake (sha1Hex fingerprintData) 16

/-- Decimal digits of `n`, most significant first, with explicit fuel so the
recursion is structural (`fuel > n` suffices). Models the digit string that
JavaScript template interpolation produces for a whole number. -/
def natReprAux : Nat → Nat → List Char
  | 0, _ => []
  | fuel + 1, n =>
      if n < 10 then [Char.ofNat (48 + n)]
      else natReprAux fuel (n / 10) ++ [Char.ofNat (48 + n % 10)]

/-- Decimal representation of a natural number as characters. -/
def natRepr (n : Nat) : List Char := natReprAux (n + 1) n

/-- `String(x).padStart(2, '0')`. -/
def padStart2 (s : List Char) : List Char :=
  List.replicate (2 - s.length) '0' ++ s

/-- `parseInt(s, 10)` on a string of decimal digits. -/
def parseDecimal (s : List Char) : Nat :=
  s.foldl (fun acc c => acc * 10 + (c.toNat - 48)) 0

/-- `getDayId` (logs.ts line 311): `parseInt` of the year followed by the
zero-padded month and day. -/
def getDayId (date : DateTime) : Nat :=
  parseDecimal (natRepr date.year ++ padStart2 (natRepr date.month) ++ padStart2 (natRepr date.day))

/-- `processLogEvents` (logs.ts line 256): materialise a batch into rows,
stamping every row with a single receive time and its day bucket. -/
def processLogEvents (events : List LogEvent) (projectId : Nat) (projectSlug : String)
    (currentTime : DateTime) : List LogRow :=
  let dayId := getDayId currentTime
  events.map fun event =>
    { project_id := projectId
      ts := match event.ts with
            | some iso => if iso = "" then .received currentTime else .parsed iso
            | none => .received currentTime
      level := event.level
      message := strTake event.message 1024
      source := strTake (jsOrString event.source projectSlug) 64
      env := strTake (jsOrString event.env "production") 32
      context := event.ctx
      user_id := jsTruncOpt event.user_id 64
      request_id := jsTruncOpt event.request_id 64
      tags := jsTruncOpt event.tags 128
      fingerprint := calculateLogFingerprint event
      day_id := dayId
      created_at := currentTime }

/-! ## The POST /api/log pipeline (`src/routes/logs.ts` handler)

The Fastify route declares a JSON body schema (`events` array, `minItems 1`,
`maxItems 250`) which the framework enforces before any handler code runs; a
violation surfaces through the global error handler as HTTP 400 with the
framework code `FST_ERR_VALIDATION`. The handler then performs inline
authentication (the encapsulated auth middleware never fires for this route),
Zod batch validation, the configurable batch-size check, and the bulk insert.
`tsValid` stands for Zod's external `z.string().datetime()` format check. -/

/-- Authentication error codes thrown as `AuthenticationError` (HTTP 401). -/
inductive AuthCode
  | PROJECT_KEY_MISSING
  | SIGNATURE_MISSING
  | PROJECT_NOT_FOUND
  | SIGNATURE_INVALID
  | AUTH_ERROR
  deriving DecidableEq, Repr

/-- Validation error codes thrown as `ValidationError` (HTTP 400). -/
inductive ValCode
  | PROJECT_REQUIRED
  | INVALID_EVENT_DATA
  | TOO_MANY_EVENTS
  deriving DecidableEq, Repr

/-- An error escaping the route, as the global error handler classifies it. -/
inductive AppError
  | auth (code : AuthCode)
  | validation (code : ValCode)
  | fastifySchemaViolation
  deriving DecidableEq, Repr

/-- HTTP status assigned by the global error handler (`createApp`):
`AuthenticationError` → 401, `ValidationError` → 400, and the framework's
schema violation (statusCode 400 < 500) → 400. -/
def errorHttpStatus : AppError → Nat
  | .auth _ => 401
  | .validation _ => 400
  | .fastifySchemaViolation => 400

/-- The machine-readable `code` field of the error response body. -/
def errorCodeString : AppError → String
  | .auth .PROJECT_KEY_MISSING => "PROJECT_KEY_MISSING"
  | .auth .SIGNATURE_MISSING => "SIGNATURE_MISSING"
  | .auth .PROJECT_NOT_FOUND => "PROJECT_NOT_FOUND"
  | .auth .SIGNATURE_INVALID => "SIGNATURE_INVALID"
  | .auth .AUTH_ERROR => "AUTH_ERROR"
  | .validation .PROJECT_REQUIRED => "PROJECT_REQUIRED"
  | .validation .INVALID_EVENT_DATA => "INVALID_EVENT_DATA"
  | .validation .TOO_MANY_EVENTS => "TOO_MANY_EVENTS"
  | .fastifySchemaViolation => "FST_ERR_VALIDATION"

/-- `logEventSchema` (types/index.ts line 73); `tsValid` is Zod's
datetime-format predicate for the optional `ts` string. -/
def validLogEvent (tsValid : String → Bool) (e : LogEvent) : Bool :=
  (match e.ts with | none => true | some s => tsValid s) &&
  (1 ≤ e.message.length && e.message.length ≤ 1024) &&
  (match e.source with | none => true | some s => (1 ≤ s.length && s.length ≤ 64 : Bool)) &&
  (match e.env with | none => true | some s => (1 ≤ s.length && s.length ≤ 32 : Bool)) &&
  (match e.user_id with | none => true | some s => s.length ≤ 64) &&
  (match e.request_id with | none => true | some s => s.length ≤ 64) &&
  (match e.tags with | none => true | some s => s.length ≤ 128)

/-- `logBatchSchema` (types/index.ts line 85): an array of 1..250 valid events. -/
def validLogBatch (tsValid : String → Bool) (events : List LogEvent) : Bool :=
  (1 ≤ events.length && events.length ≤ 250) && events.all (validLogEvent tsValid)

/-- The inbound request as the route sees it: the two auth headers, the raw
body bytes captured by the preParsing hook, and the parsed `events` array. -/
structure IngestRequest where
  projectKey : Option String
  signature : Option String
  rawBody : String
  events : List LogEvent

/-- Success body of the ingest route (`received` / `processed`, the opaque
requestId being noise for correlation only). -/
structure IngestOk where
  received : Nat
  processed : Nat
  deriving DecidableEq, Repr

/-- The POST /api/log pipeline: Fastify body-schema validation, the inline
authentication block (logs.ts lines 48-132, with the catch that wraps
non-`AuthenticationError` throwables — such as `timingSafeEqual`'s
`RangeError` — into `AUTH_ERROR`), Zod validation, the `TOO_MANY_EVENTS`
check, and row materialisation. `projectLookup` models the `projects` table
query keyed by the SHA-256 hash of the API key. The second component is the
list of rows bulk-inserted into `logs` (empty on any error). -/
def postLog (tsValid : String → Bool) (req : IngestRequest)
    (projectLookup : String → Option Project) (hmacSecret : String)
    (maxEventsPerPost : Nat) (currentTime : DateTime) :
    Except AppError IngestOk × List LogRow :=
  if req.events.length < 1 ∨ req.events.length > 250 then
    (.error .fastifySchemaViolation, [])
  else
    match req.projectKey with
    | none => (.error (.auth .PROJECT_KEY_MISSING), [])
    | some projectKey =>
      match req.signature with
      | none => (.error (.auth .SIGNATURE_MISSING), [])
      | some signature =>
        let apiKeyHash := sha256Hex projectKey
        match projectLookup apiKeyHash with
        | none => (.error (.auth .PROJECT_NOT_FOUND), [])
        | some project =>
          let expectedSignature := calculateHmacSignature req.rawBody hmacSecret
          match timingSafeEqual (bufferFromHex signature) (bufferFromHex expectedSignature) with
          | .error _ => (.error (.auth .AUTH_ERROR), [])
          | .ok false => (.error (.auth .SIGNATURE_INVALID), [])
          | .ok true =>
            if ¬ validLogBatch tsValid req.events then
              (.error (.validation .INVALID_EVENT_DATA), [])
            else if req.events.length > maxEventsPerPost then
              (.error (.validation .TOO_MANY_EVENTS), [])
            else
              let rows := processLogEvents req.events project.id project.slug currentTime
              (.ok ⟨req.events.length, rows.length⟩, rows)

/-! ## Two-tier rate limiter (`src/middleware/rateLimit.ts`)

The `project_minute_counters` table is an association list keyed by
`(type, key_value, minute_utc)` with a unique-key constraint, so the upsert
updates the first (only) matching row or appends a fresh one with count 1. -/

/-- Composite counter key `(type, key_value, minute_utc)`. -/
abbrev CounterKey := String × String × Nat

/-- The counter table. -/
abbrev CounterStore := List (CounterKey × Nat)

/-- `SELECT count FROM project_minute_counters WHERE ...` (at most one row). -/
def counterGet : CounterStore → CounterKey → Option Nat
  | [], _ => none
  | e :: t, k => if e.1 = k then some e.2 else counterGet t k

/-- `INSERT ... VALUES (?,?,?,1) ON DUPLICATE KEY UPDATE count = count + 1`. -/
def counterUpsert : CounterStore → CounterKey → CounterStore
  | [], k => [(k, 1)]
  | e :: t, k => if e.1 = k then (e.1, e.2 + 1) :: t else e :: counterUpsert t k

/-- `incrementCounter` (rateLimit.ts line 112): atomic upsert then read-back,
with the JavaScript `result?.count || 1` fallback. -/
def incrementCounter (st : CounterStore) (type key : String) (minuteUtc : Nat) :
    CounterStore × Nat :=
  let st2 := counterUpsert st (type, key, minuteUtc)
  let count := match counterGet st2 (type, key, minuteUtc) with
    | some c => if c = 0 then 1 else c
    | none => 1
  (st2, count)

/-- The three per-tier observability headers set on a non-limited request. -/
structure RateLimitHeaders where
  limitHeader : Nat
  remainingHeader : Nat
  resetHeader : Nat
  deriving DecidableEq, Repr

/-- A thrown `RateLimitError` together with the `Retry-After` header set just
before the throw. -/
structure RateLimitRejection where
  retryAfter : Nat
  code : String
  retryAfterHeader : Nat
  deriving DecidableEq, Repr

/-- `checkIpRateLimit` (rateLimit.ts line 52). -/
def checkIpRateLimit (st : CounterStore) (ip : String) (perIpCap : Nat) (minuteUtc : Nat) :
    CounterStore × Except RateLimitRejection RateLimitHeaders :=
  let r := incrementCounter st "ip" ip minuteUtc
  if r.2 > perIpCap then
    (r.1, .error ⟨60, "IP_RATE_LIMIT_EXCEEDED", 60⟩)
  else
    (r.1, .ok ⟨perIpCap, (max 0 ((perIpCap : Int) - (r.2 : Int))).toNat, (minuteUtc + 1) * 60⟩)

/-- `checkProjectRateLimit` (rateLimit.ts line 79). -/
def checkProjectRateLimit (st : CounterStore) (projectId : Nat) (perProjectCap : Nat)
    (minuteUtc : Nat) : CounterStore × Except RateLimitRejection RateLimitHeaders :=
  let r := incrementCounter st "project" (toString projectId) minuteUtc
  if r.2 > perProjectCap then
    (r.1, .error ⟨60, "PROJECT_RATE_LIMIT_EXCEEDED", 60⟩)
  else
    (r.1, .ok ⟨perProjectCap, (max 0 ((perProjectCap : Int) - (r.2 : Int))).toNat, (minuteUtc + 1) * 60⟩)

/-- `getCurrentMinute` (rateLimit.ts line 133): `Date.now()` is milliseconds. -/
def getCurrentMinute (nowMs : Nat) : Nat := nowMs / 1000 / 60

/-- `cleanupExpiredRateLimitCounters` (rateLimit.ts line 140): delete counter
rows older than two minutes; returns the remaining table and `affectedRows`. -/
def cleanupExpiredRateLimitCounters (nowMinute : Nat) (st : CounterStore) :
    CounterStore × Nat :=
  let cutoffMinute := nowMinute - 2
  (st.filter (fun e => ¬ e.1.2.2 < cutoffMinute),
   (st.filter (fun e => e.1.2.2 < cutoffMinute)).length)

/-! ## Store helpers (`src/services/database.ts`) -/

/-- Error codes of `DatabaseError` as thrown by the store helpers. -/
inductive DbErrCode
  | DB_NOT_INITIALIZED
  | DB_QUERY_FAILED
  | DB_BULK_INSERT_FAILED
  deriving DecidableEq, Repr

/-- `mysql.ResultSetHeader` as the driver returns it for a write. -/
structure ResultSetHeader where
  affectedRows : Nat
  insertId : Nat
  deriving DecidableEq, Repr

/-- Return value of `executeBulkInsert`. -/
structure BulkInsertResult where
  affectedRows : Nat
  insertId : Option Nat
  deriving DecidableEq, Repr

/-- The multi-row placeholder clause `(?, ?, …), (?, ?, …)` built by
`executeBulkInsert`; note the source takes the arity of every row from
`values[0]`. -/
def bulkPlaceholders (values : List (List String)) : String :=
  String.intercalate ", " (values.map (fun _ =>
    "(" ++ String.intercalate ", " ((values.headD []).map (fun _ => "?")) ++ ")"))

/-- `executeBulkInsert` (database.ts line 162). `exec` models
`pool.execute`; the pool-initialisation guard precedes the empty-rows
short-circuit, which returns a successful zero-row result without touching
the pool. -/
def executeBulkInsert (poolInitialized : Bool)
    (exec : String → List String → Except Unit ResultSetHeader)
    (query : String) (values : List (List String)) :
    Except DbErrCode BulkInsertResult :=
  if ¬ poolInitialized then .error .DB_NOT_INITIALIZED
  else if values.length = 0 then .ok ⟨0, none⟩
  else
    match exec (query ++ bulkPlaceholders values) values.flatten with
    | .ok h => .ok ⟨h.affectedRows, some h.insertId⟩
    | .error _ => .error .DB_BULK_INSERT_FAILED

/-- `cleanupExpiredCounters` (database.ts line 223): delete counter rows
more than `olderThanMinutes` (default 120) old. -/
def cleanupExpiredCounters (olderThanMinutes : Nat) (nowMinute : Nat) (st : CounterStore) :
    CounterStore × Nat :=
  let cutoffTime := nowMinute - olderThanMinutes
  (st.filter (fun e => ¬ e.1.2.2 < cutoffTime),
   (st.filter (fun e => e.1.2.2 < cutoffTime)).length)

/-- `purgeOldLogs` (database.ts line 234): `DELETE FROM logs WHERE day_id < ?`.
`dayIdCutoff` stands for the `YYYYMMDD` integer the source derives from the
Date library for `today − retentionDays` days. Returns the surviving rows and
`affectedRows`. -/
def purgeOldLogs (dayIdCutoff : Nat) (logs : List LogRow) : List LogRow × Nat :=
  (logs.filter (fun r => ¬ r.day_id < dayIdCutoff),
   (logs.filter (fun r => r.day_id < dayIdCutoff)).length)

/-! ## Self-triggered maintenance (`src/routes/logs.ts` lines 10-12, 352-413) -/

/-- The mutable store state the maintenance steps touch. -/
structure DbState where
  rateCounters : CounterStore
  logs : List LogRow
  deriving DecidableEq, Repr

/-- `runMaintenanceTasks` (logs.ts line 379): the three steps run inside one
`try` block, so a failing step (modelled by fault flag `fi` standing for a
throwing database call) aborts the remaining steps and the error is
rethrown. Returns the resulting store state, the names of the steps that
completed, and the outcome. -/
def runMaintenanceTasks (f1 f2 f3 : Bool) (nowMinute dayIdCutoff : Nat) (st : DbState) :
    DbState × List String × Except DbErrCode Unit :=
  if f1 then (st, [], .error .DB_QUERY_FAILED)
  else
    let st1 : DbState := { st with rateCounters := (cleanupExpiredRateLimitCounters nowMinute st.rateCounters).1 }
    if f2 then (st1, ["rateLimitCounters"], .error .DB_QUERY_FAILED)
    else
      let st2 : DbState := { st1 with rateCounters := (cleanupExpiredCounters 120 nowMinute st1.rateCounters).1 }
      if f3 then (st2, ["rateLimitCounters", "dbCounters"], .error .DB_QUERY_FAILED)
      else
        let st3 : DbState := { st2 with logs := (purgeOldLogs dayIdCutoff st2.logs).1 }
        (st3, ["rateLimitCounters", "dbCounters", "purge"], .ok ())

/-- `MAINTENANCE_INTERVAL` (logs.ts line 12): five minutes in milliseconds. -/
def MAINTENANCE_INTERVAL : Nat := 5 * 60 * 1000

/-- `checkAndTriggerMaintenance` (logs.ts line 352) acting on the
process-local `lastMaintenanceTime`: returns the new value of
`lastMaintenanceTime` and whether a maintenance task was spawned. -/
def checkAndTriggerMaintenance (now lastMaintenanceTime : Nat) : Nat × Bool :=
  if now - lastMaintenanceTime < MAINTENANCE_INTERVAL then (lastMaintenanceTime, false)
  else (now, true)

/-- The trigger evaluated over a sequence of ingest-completion instants,
threading `lastMaintenanceTime` through; each entry of the result pairs the
call instant with whether it spawned maintenance. -/
def triggerTrace : Nat → List Nat → List (Nat × Bool)
  | _, [] => []
  | last, t :: ts =>
      let r := checkAndTriggerMaintenance t last
      (t, r.2) :: triggerTrace r.1 ts

/-- The instants at which maintenance was spawned along a trace. -/
def spawnTimes (last0 : Nat) (times : List Nat) : List Nat :=
  ((triggerTrace last0 times).filter (fun e => e.2)).map (fun e => e.1)

/-! ## Concrete fixtures shared by several witnesses -/

/-- The single-event payload of spec scenario 1: `{"level":"error","message":"boom"}`. -/
def boomEvent : LogEvent := { level := .error, message := "boom" }

/-- A fixed server receive time used in witnesses. -/
def dW : DateTime := ⟨2026, 10, 12, 0, 0, 0⟩

/-! ## Supporting lemmas: decimal digits and `getDayId` -/

theorem parseDecimal_from (l : List Char) (i : Nat) :
    l.foldl (fun acc c => acc * 10 + (c.toNat - 48)) i
      = i * 10 ^ l.length + parseDecimal l := by
  induction l generalizing i with
  | nil => simp [parseDecimal]
  | cons c t ih =>
      simp only [List.foldl_cons, List.length_cons, parseDecimal] at *
      rw [ih (i * 10 + (c.toNat - 48)), ih (0 * 10 + (c.toNat - 48))]
      ring

theorem parseDecimal_append (a b : List Char) :
    parseDecimal (a ++ b) = parseDecimal a * 10 ^ b.length + parseDecimal b := by
  unfold parseDecimal
  rw [List.foldl_append]
  exact parseDecimal_from b _

theorem toNat_digitChar (d : Nat) (h : d < 10) : (Char.ofNat (48 + d)).toNat = 48 + d := by
  interval_cases d <;> decide

theorem parseDecimal_single_digit (d : Nat) (h : d < 10) :
    parseDecimal [Char.ofNat (48 + d)] = d := by
  simp [parseDecimal, toNat_digitChar d h]

theorem parseDecimal_natReprAux (n : Nat) : ∀ fuel, n < fuel →
    parseDecimal (natReprAux fuel n) = n := by
  induction n using Nat.strong_induction_on with
  | _ n ih =>
    intro fuel hf
    match fuel, hf with
    | fuel + 1, _ =>
      by_cases h10 : n < 10
      · simp only [natReprAux, if_pos h10]
        exact parseDecimal_single_digit n h10
      · simp only [natReprAux, if_neg h10]
        rw [parseDecimal_append]
        have hdiv : n / 10 < n := Nat.div_lt_self (by omega) (by omega)
        rw [ih (n / 10) hdiv fuel (by omega),
            parseDecimal_single_digit (n % 10) (Nat.mod_lt n (by omega))]
        simp only [List.length_singleton, pow_one]
        omega

theorem parseDecimal_natRepr (n : Nat) : parseDecimal (natRepr n) = n :=
  parseDecimal_natReprAux n (n + 1) (Nat.lt_succ_self n)

theorem natReprAux_small (fuel n : Nat) (h : n < 10) (hf : 0 < fuel) :
    natReprAux fuel n = [Char.ofNat (48 + n)] := by
  match fuel, hf with
  | fuel + 1, _ => simp [natReprAux, h]

theorem natRepr_length_le_two (n : Nat) (h : n < 100) : (natRepr n).length ≤ 2 := by
  by_cases h10 : n < 10
  · rw [natRepr, natReprAux_small _ _ h10 (by omega)]
    simp
  · have hdiv : n / 10 < 10 := by
      rw [Nat.div_lt_iff_lt_mul (by omega)]; omega
    have hstep : natReprAux (n + 1) n
        = natReprAux n (n / 10) ++ [Char.ofNat (48 + n % 10)] := by
      simp [natReprAux, h10]
    rw [natRepr, hstep, natReprAux_small n (n / 10) hdiv (by omega)]
    simp

theorem parseDecimal_replicate_zero (k : Nat) :
    parseDecimal (List.replicate k '0') = 0 := by
  induction k with
  | zero => rfl
  | succ k ih =>
      show parseDecimal ('0' :: List.replicate k '0') = 0
      simpa [parseDecimal, List.foldl_cons] using ih

theorem padStart2_length (s : List Char) (h : s.length ≤ 2) :
    (padStart2 s).length = 2 := by
  simp [padStart2]; omega

theorem parseDecimal_padStart2 (s : List Char) :
    parseDecimal (padStart2 s) = parseDecimal s := by
  rw [padStart2, parseDecimal_append, parseDecimal_replicate_zero]
  ring

theorem getDayId_eq (d : DateTime) (hm : d.month < 100) (hd : d.day < 100) :
    getDayId d = d.year * 10000 + d.month * 100 + d.day := by
  unfold getDayId
  rw [parseDecimal_append, parseDecimal_append,
      padStart2_length _ (natRepr_length_le_two _ hm),
      padStart2_length _ (natRepr_length_le_two _ hd),
      parseDecimal_padStart2, parseDecimal_padStart2,
      parseDecimal_natRepr, parseDecimal_natRepr, parseDecimal_natRepr]
  ring

/-! ## Supporting lemmas: string join and JavaScript truthiness -/

theorem jsOrString_empty (a : Option String) : jsOrString a "" = a.getD "" := by
  cases a with
  | none => rfl
  | some s =>
      by_cases h : s = "" <;> simp [jsOrString, h]

theorem intercalate_three (sep a b c : String) :
    String.intercalate sep [a, b, c] = a ++ sep ++ b ++ sep ++ c := rfl

/-! ## Claim C2: fingerprint derivation -/

/-- Claim C2 (confirmed): the stored fingerprint of every ingested event is
the first 16 hex characters of the SHA-1 of the message, the source (empty
when absent) and `ctx.stack` (empty when absent) joined with literal pipes;
the `"boom"` event with no source and no ctx gets
`first16hex(SHA1("boom||")) = "617ce91e3b301630"`. -/
theorem claim_C2_fingerprint :
    (∀ e : LogEvent, calculateLogFingerprint e =
      strTake (sha1Hex (e.message ++ "|" ++ e.source.getD "" ++ "|" ++
        (e.ctx.bind LogCtx.stack).getD "")) 16) ∧
    (∀ (events : List LogEvent) (pid : Nat) (slug : String) (now : DateTime),
      (processLogEvents events pid slug now).map LogRow.fingerprint
        = events.map calculateLogFingerprint) ∧
    calculateLogFingerprint boomEvent = "617ce91e3b301630" ∧
    strTake (sha1Hex "boom||") 16 = "617ce91e3b301630" := by
  refine ⟨?_, ?_, by decide, by decide⟩
  · intro e
    unfold calculateLogFingerprint
    rw [intercalate_three, jsOrString_empty, jsOrString_empty]
  · intro events pid slug now
    unfold processLogEvents
    simp [List.map_map]

/-! ## Claim C8: day bucket stability -/

/-- Claim C8 (confirmed): every row of a processed batch carries the batch's
single server receive time as `created_at`, and its `day_id` is exactly the
`YYYYMMDD` number of that `created_at` (months and days being the at most
two-digit values the Date library yields). -/
theorem claim_C8_day_bucket (events : List LogEvent) (pid : Nat) (slug : String)
    (now : DateTime) (hm : now.month < 100) (hd : now.day < 100) :
    ∀ row ∈ processLogEvents events pid slug now,
      row.created_at = now ∧
      row.day_id = getDayId row.created_at ∧
      row.day_id = now.year * 10000 + now.month * 100 + now.day := by
  intro row hrow
  unfold processLogEvents at hrow
  simp only [List.mem_map] at hrow
  obtain ⟨e, _, heq⟩ := hrow
  subst heq
  exact ⟨rfl, rfl, getDayId_eq now hm hd⟩

/-- Witness for C8 at a concrete batch and date. -/
theorem claim_C8_witness :
    ((processLogEvents [boomEvent] 7 "slug" dW).headD
      { project_id := 0, ts := .received dW, level := .error, message := "",
        source := "", env := "", context := none, user_id := none,
        request_id := none, tags := none, fingerprint := "", day_id := 0,
        created_at := dW }).day_id = 20261012 := by
  have h := claim_C8_day_bucket [boomEvent] 7 "slug" dW (by decide) (by decide)
      ((processLogEvents [boomEvent] 7 "slug" dW).headD
        { project_id := 0, ts := .received dW, level := .error, message := "",
          source := "", env := "", context := none, user_id := none,
          request_id := none, tags := none, fingerprint := "", day_id := 0,
          created_at := dW })
      (by decide)
  rw [h.2.2]
  decide

/-! ## Claim C5: maintenance trigger spacing -/

theorem spawnTimes_cons (last a : Nat) (ts : List Nat) :
    spawnTimes last (a :: ts) =
      if a - last < MAINTENANCE_INTERVAL then spawnTimes last ts
      else a :: spawnTimes a ts := by
  by_cases hc : a - last < MAINTENANCE_INTERVAL <;>
    simp [spawnTimes, triggerTrace, checkAndTriggerMaintenance, hc]

theorem spawnTimes_lower (times : List Nat) : ∀ last t, t ∈ spawnTimes last times →
    last + MAINTENANCE_INTERVAL ≤ t := by
  induction times with
  | nil =>
      intro last t h
      simp [spawnTimes, triggerTrace] at h
  | cons a ts ih =>
      intro last t h
      rw [spawnTimes_cons] at h
      by_cases hc : a - last < MAINTENANCE_INTERVAL
      · rw [if_pos hc] at h
        exact ih last t h
      · rw [if_neg hc] at h
        simp only [MAINTENANCE_INTERVAL] at hc ⊢
        rcases List.mem_cons.mp h with rfl | h2
        · omega
        · have h3 := ih a t h2
          simp only [MAINTENANCE_INTERVAL] at h3
          omega

theorem spawnTimes_pairwise (last0 : Nat) (times : List Nat) :
    (spawnTimes last0 times).Pairwise (fun x y => x + MAINTENANCE_INTERVAL ≤ y) := by
  induction times generalizing last0 with
  | nil => simp [spawnTimes, triggerTrace]
  | cons a ts ih =>
      rw [spawnTimes_cons]
      by_cases hc : a - last0 < MAINTENANCE_INTERVAL
      · rw [if_pos hc]; exact ih last0
      · rw [if_neg hc]
        exact List.Pairwise.cons (fun y hy => spawnTimes_lower ts a y hy) (ih a)

/-- Claim C5 (confirmed): the trigger returns without spawning while
`now − last_triggered_at` is under five minutes, otherwise records `now` as
`last_triggered_at` in the same step that spawns; along any trace of trigger
evaluations, every two spawn instants are at least `MAINTENANCE_INTERVAL`
(five minutes) apart. -/
theorem claim_C5_trigger_spacing (now last last0 : Nat) (times : List Nat) :
    (now - last < MAINTENANCE_INTERVAL →
      checkAndTriggerMaintenance now last = (last, false)) ∧
    (MAINTENANCE_INTERVAL ≤ now - last →
      checkAndTriggerMaintenance now last = (now, true)) ∧
    (spawnTimes last0 times).Pairwise (fun x y => x + MAINTENANCE_INTERVAL ≤ y) := by
  refine ⟨?_, ?_, spawnTimes_pairwise last0 times⟩
  · intro h
    simp [checkAndTriggerMaintenance, h]
  · intro h
    simp only [checkAndTriggerMaintenance, MAINTENANCE_INTERVAL] at h ⊢
    rw [if_neg (by omega)]

/-- Witness for C5: a throttled call, a spawning call, and a concrete trace. -/
theorem claim_C5_witness :
    checkAndTriggerMaintenance 200000 0 = (0, false) ∧
    checkAndTriggerMaintenance 600000 100000 = (600000, true) ∧
    (spawnTimes 0 [100, 300000, 600000, 800000, 900001]).Pairwise
      (fun x y => x + MAINTENANCE_INTERVAL ≤ y) :=
  ⟨(claim_C5_trigger_spacing 200000 0 0 []).1 (by decide),
   (claim_C5_trigger_spacing 600000 100000 0 []).2.1 (by decide),
   (claim_C5_trigger_spacing 0 0 0 [100, 300000, 600000, 800000, 900001]).2.2⟩

/-! ## Fixture rows for the maintenance claims -/

/-- A log row whose `day_id` lies before the retention cutoff used below. -/
def staleRow : LogRow :=
  { project_id := 1, ts := .received dW, level := .warn, message := "old",
    source := "s", env := "production", context := none, user_id := none,
    request_id := none, tags := none, fingerprint := "f1", day_id := 20260101,
    created_at := dW }

/-- A log row whose `day_id` lies at or after the retention cutoff used below. -/
def freshRow : LogRow :=
  { project_id := 1, ts := .received dW, level := .warn, message := "new",
    source := "s", env := "production", context := none, user_id := none,
    request_id := none, tags := none, fingerprint := "f2", day_id := 20261012,
    created_at := dW }

/-! ## Claim C4: retention purge -/

/-- Claim C4 (confirmed): when the maintenance task completes successfully,
the purge step has removed exactly the log rows with `day_id` below the
cutoff (the `YYYYMMDD` of today minus the global retention), leaving the
remaining rows unchanged; afterwards no surviving row sits below the cutoff. -/
theorem claim_C4_retention (f1 f2 f3 : Bool) (nowMinute dayIdCutoff : Nat) (st : DbState)
    (hok : (runMaintenanceTasks f1 f2 f3 nowMinute dayIdCutoff st).2.2 = .ok ()) :
    (runMaintenanceTasks f1 f2 f3 nowMinute dayIdCutoff st).1.logs
      = st.logs.filter (fun r => ¬ r.day_id < dayIdCutoff) ∧
    (∀ r ∈ (runMaintenanceTasks f1 f2 f3 nowMinute dayIdCutoff st).1.logs,
      dayIdCutoff ≤ r.day_id) ∧
    (purgeOldLogs dayIdCutoff st.logs).1
      = st.logs.filter (fun r => ¬ r.day_id < dayIdCutoff) := by
  have hflags : f1 = false ∧ f2 = false ∧ f3 = false := by
    cases f1 <;> cases f2 <;> cases f3 <;> simp_all [runMaintenanceTasks]
  obtain ⟨rfl, rfl, rfl⟩ := hflags
  have h1 : (runMaintenanceTasks false false false nowMinute dayIdCutoff st).1.logs
      = st.logs.filter (fun r => ¬ r.day_id < dayIdCutoff) := rfl
  refine ⟨h1, ?_, rfl⟩
  intro r hr
  rw [h1] at hr
  have h2 := (List.mem_filter.mp hr).2
  simp at h2
  omega

/-- Witness for C4 on a two-row table: the stale row goes, the fresh row stays. -/
theorem claim_C4_witness :
    (runMaintenanceTasks false false false 100 20261010 ⟨[], [staleRow, freshRow]⟩).1.logs
      = [freshRow] := by
  have h := claim_C4_retention false false false 100 20261010 ⟨[], [staleRow, freshRow]⟩ rfl
  rw [h.1]
  decide

/-! ## Claim C6: maintenance step-failure tolerance (refuted) -/

/-- Counterexample to C6: with the first step failing on a table that still
holds a purgeable row, the task stops at once — no later step runs (the
executed-step list is empty), the store is untouched (the stale row is still
there, unlike what the purge step would have left) and the error is rethrown. -/
theorem claim_C6_counterexample :
    runMaintenanceTasks true false false 100 20261010 ⟨[], [staleRow]⟩
      = (⟨[], [staleRow]⟩, [], .error .DB_QUERY_FAILED) ∧
    ¬ "purge" ∈ (runMaintenanceTasks true false false 100 20261010 ⟨[], [staleRow]⟩).2.1 ∧
    (purgeOldLogs 20261010 [staleRow]).1 ≠ [staleRow] :=
  ⟨rfl, by decide, by decide⟩

/-- Claim C6 (amended): the maintenance task does not tolerate individual-step
failure — the three steps share one `try` block, so the counter-expiry and
purge steps after a failing step never execute (step 2 runs only when step 1
succeeded, step 3 only when steps 1 and 2 succeeded) and the first error is
rethrown to the trigger, which logs and swallows it. -/
theorem claim_C6_amended (f1 f2 f3 : Bool) (nowMinute dayIdCutoff : Nat) (st : DbState) :
    (runMaintenanceTasks f1 f2 f3 nowMinute dayIdCutoff st).2.1
      = (if f1 then [] else if f2 then ["rateLimitCounters"]
         else if f3 then ["rateLimitCounters", "dbCounters"]
         else ["rateLimitCounters", "dbCounters", "purge"]) ∧
    ((runMaintenanceTasks f1 f2 f3 nowMinute dayIdCutoff st).2.2 = .ok ()
      ↔ f1 = false ∧ f2 = false ∧ f3 = false) ∧
    (f1 = true → (runMaintenanceTasks f1 f2 f3 nowMinute dayIdCutoff st).1 = st) := by
  cases f1 <;> cases f2 <;> cases f3 <;> simp [runMaintenanceTasks]

/-! ## Claim C3: two-tier rate limiting -/

theorem counterGet_upsert (st : CounterStore) (k : CounterKey) :
    counterGet (counterUpsert st k) k = some ((counterGet st k).getD 0 + 1) := by
  induction st with
  | nil => simp [counterGet, counterUpsert]
  | cons e t ih =>
      by_cases h : e.1 = k
      · simp [counterGet, counterUpsert, h]
      · simp [counterGet, counterUpsert, h, ih]

theorem incrementCounter_eq (st : CounterStore) (ty key : String) (m : Nat) :
    incrementCounter st ty key m =
      (counterUpsert st (ty, key, m), (counterGet st (ty, key, m)).getD 0 + 1) := by
  simp [incrementCounter, counterGet_upsert]

/-- Claim C3 (confirmed): each tier upserts its `(kind, key, m)` counter row,
reads the incremented value back as `count`, rejects with a rate-limit error
carrying `retry_after = 60` and a `Retry-After: 60` header when
`count > cap`, and otherwise reports the three observability headers
`limit = cap`, `remaining = max(0, cap − count)` and `reset = (m+1)·60`;
the window `m` is `floor(now_unix_seconds / 60)`. -/
theorem claim_C3_rate_limiter (st : CounterStore) (ip : String) (pid : Nat)
    (capIp capProj m nowMs : Nat) :
    (counterGet (checkIpRateLimit st ip capIp m).1 ("ip", ip, m)
      = some ((counterGet st ("ip", ip, m)).getD 0 + 1)) ∧
    ((counterGet st ("ip", ip, m)).getD 0 + 1 > capIp →
      (checkIpRateLimit st ip capIp m).2 = .error ⟨60, "IP_RATE_LIMIT_EXCEEDED", 60⟩) ∧
    ((counterGet st ("ip", ip, m)).getD 0 + 1 ≤ capIp →
      (checkIpRateLimit st ip capIp m).2 = .ok
        ⟨capIp, (max 0 ((capIp : Int) - ((counterGet st ("ip", ip, m)).getD 0 + 1))).toNat,
         (m + 1) * 60⟩) ∧
    (counterGet (checkProjectRateLimit st pid capProj m).1 ("project", toString pid, m)
      = some ((counterGet st ("project", toString pid, m)).getD 0 + 1)) ∧
    ((counterGet st ("project", toString pid, m)).getD 0 + 1 > capProj →
      (checkProjectRateLimit st pid capProj m).2
        = .error ⟨60, "PROJECT_RATE_LIMIT_EXCEEDED", 60⟩) ∧
    ((counterGet st ("project", toString pid, m)).getD 0 + 1 ≤ capProj →
      (checkProjectRateLimit st pid capProj m).2 = .ok
        ⟨capProj,
         (max 0 ((capProj : Int) - ((counterGet st ("project", toString pid, m)).getD 0 + 1))).toNat,
         (m + 1) * 60⟩) ∧
    getCurrentMinute nowMs = nowMs / 1000 / 60 := by
  refine ⟨?_, ?_, ?_, ?_, ?_, ?_, rfl⟩
  · simp [checkIpRateLimit, incrementCounter_eq, counterGet_upsert]
    split <;> simp [counterGet_upsert]
  · intro h
    simp only [checkIpRateLimit, incrementCounter_eq]
    rw [if_pos h]
  · intro h
    simp only [checkIpRateLimit, incrementCounter_eq]
    rw [if_neg (by omega)]
    simp
  · simp [checkProjectRateLimit, incrementCounter_eq, counterGet_upsert]
    split <;> simp [counterGet_upsert]
  · intro h
    simp only [checkProjectRateLimit, incrementCounter_eq]
    rw [if_pos h]
  · intro h
    simp only [checkProjectRateLimit, incrementCounter_eq]
    rw [if_neg (by omega)]
    simp

/-- Witness for C3: a first request from a fresh address passes with
`remaining = cap − 1`; a request over a zero cap is rejected with the 60s
retry instruction. -/
theorem claim_C3_witness :
    (checkIpRateLimit [] "203.0.113.9" 100 980).2 = .ok ⟨100, 99, 58860⟩ ∧
    (checkProjectRateLimit [(("project", "7", 980), 41)] 7 5000 980).2
      = .ok ⟨5000, 4958, 58860⟩ ∧
    (checkIpRateLimit [] "203.0.113.9" 0 980).2 = .error ⟨60, "IP_RATE_LIMIT_EXCEEDED", 60⟩ := by
  refine ⟨?_, ?_, ?_⟩
  · have h := (claim_C3_rate_limiter [] "203.0.113.9" 7 100 5000 980 0).2.2.1 (by decide)
    rw [h]
    norm_num [counterGet]
    rfl
  · have h := (claim_C3_rate_limiter [(("project", "7", 980), 41)] "x" 7 100 5000 980 0).2.2.2.2.2.1
      (by decide)
    rw [h]
    norm_num [counterGet, toString]
    rfl
  · exact (claim_C3_rate_limiter [] "203.0.113.9" 7 0 5000 980 0).2.1 (by decide)

/-! ## Claim C9: bulk insert of an empty row list (refuted) -/

/-- Counterexample to C9: with an initialised pool and a live executor, the
bulk insert of an empty `values` list returns the successful result
`{affectedRows: 0}` instead of failing. -/
theorem claim_C9_counterexample :
    executeBulkInsert true (fun _ _ => .ok ⟨5, 1⟩)
      "INSERT INTO logs (project_id) VALUES " [] = .ok ⟨0, none⟩ := rfl

/-- Claim C9 (amended): `executeBulkInsert` does not reject an empty rows
list — after the pool guard it short-circuits and returns the successful
`{affectedRows: 0}` without executing any statement (the result does not
depend on the executor); only an uninitialised pool makes an empty-rows call
fail. -/
theorem claim_C9_empty_bulk_insert
    (exec : String → List String → Except Unit ResultSetHeader) (query : String) :
    executeBulkInsert true exec query [] = .ok ⟨0, none⟩ ∧
    executeBulkInsert false exec query [] = .error .DB_NOT_INITIALIZED :=
  ⟨rfl, rfl⟩

/-! ## Claim C10: totality of the signature validator -/

/-- Claim C10 (confirmed): `validateHmacSignature` always returns a boolean —
the `timingSafeEqual` length `RangeError` is caught and becomes `false` — and
it returns `true` exactly when the candidate hex-decodes to the same byte
string as the lowercase-hex HMAC-SHA-256 digest of the data under the secret
(non-hex candidates and wrong-length candidates therefore yield `false`, not
an exception); a non-hex candidate is shown returning `false` concretely. -/
theorem claim_C10_validate_total (data signature secret : String) :
    (validateHmacSignature data signature secret = true ↔
      bufferFromHex signature = bufferFromHex (calculateHmacSignature data secret)) ∧
    validateHmacSignature "abc" "zz" "key" = false := by
  refine ⟨?_, by decide⟩
  unfold validateHmacSignature timingSafeEqual
  by_cases h : (bufferFromHex signature).length
      = (bufferFromHex (calculateHmacSignature data secret)).length
  · simp [h]
  · simp [h]
    intro heq
    exact absurd (congrArg List.length heq) h

/-! ## Claim C1: signature-mismatch handling (refuted as stated) -/

/-- Claim C1 (amended): for a schema-valid POST /api/log carrying both auth
headers whose key resolves to a tenant, a signature header that hex-decodes
to bytes different from the expected HMAC-SHA-256 digest is rejected with
HTTP 401 and zero inserted rows — with code `SIGNATURE_INVALID` when the
decoded byte length equals the digest length, and code `AUTH_ERROR` (the
wrapped `timingSafeEqual` `RangeError`) when it does not. -/
theorem claim_C1_signature_rejection (tsValid : String → Bool) (req : IngestRequest)
    (lookup : String → Option Project) (secret : String) (maxE : Nat) (now : DateTime)
    (k s : String) (proj : Project)
    (hk : req.projectKey = some k)
    (hs : req.signature = some s)
    (hp : lookup (sha256Hex k) = some proj)
    (hlen1 : 1 ≤ req.events.length) (hlen2 : req.events.length ≤ 250)
    (hneq : bufferFromHex s ≠ bufferFromHex (calculateHmacSignature req.rawBody secret)) :
    postLog tsValid req lookup secret maxE now =
      (.error (.auth (if (bufferFromHex s).length
            = (bufferFromHex (calculateHmacSignature req.rawBody secret)).length
          then .SIGNATURE_INVALID else .AUTH_ERROR)), []) ∧
    errorHttpStatus (.auth .SIGNATURE_INVALID) = 401 ∧
    errorHttpStatus (.auth .AUTH_ERROR) = 401 := by
  refine ⟨?_, rfl, rfl⟩
  simp only [postLog, hk, hs, hp]
  rw [if_neg (by omega)]
  by_cases hL : (bufferFromHex s).length
      = (bufferFromHex (calculateHmacSignature req.rawBody secret)).length
  · have ht : timingSafeEqual (bufferFromHex s)
        (bufferFromHex (calculateHmacSignature req.rawBody secret)) = .ok false := by
      simp [timingSafeEqual, hL, beq_eq_false_iff_ne, hneq]
    rw [ht, if_pos hL]
  · have ht : timingSafeEqual (bufferFromHex s)
        (bufferFromHex (calculateHmacSignature req.rawBody secret)) = .error () := by
      simp [timingSafeEqual, hL]
    rw [ht, if_neg hL]

/-- Witness for C1 (amended): a 1-byte signature against the 32-byte digest
lands in the `AUTH_ERROR` wrapping branch, still 401, nothing inserted. -/
theorem claim_C1_witness :
    postLog (fun _ => true) ⟨some "pk", some "00", "{}", [boomEvent]⟩
        (fun _ => some ⟨1, "slug", "name"⟩) "testsecret" 250 dW
      = (.error (.auth .AUTH_ERROR), []) := by
  have h := claim_C1_signature_rejection (fun _ => true)
      ⟨some "pk", some "00", "{}", [boomEvent]⟩ (fun _ => some ⟨1, "slug", "name"⟩)
      "testsecret" 250 dW "pk" "00" ⟨1, "slug", "name"⟩ rfl rfl rfl (by decide) (by decide)
      (by decide)
  rw [h.1]
  rfl

/-- Counterexample to C1 as stated: the signature header `"00"` differs from
the lowercase-hex digest yet the request fails with code `AUTH_ERROR`, not
`SIGNATURE_INVALID` (hex-decoding it throws inside `timingSafeEqual`); and
the uppercase spelling of the correct digest also differs from the
lowercase-hex digest yet is accepted and inserts a row. -/
theorem claim_C1_counterexample :
    (postLog (fun _ => true) ⟨some "pk", some "00", "{}", [boomEvent]⟩
        (fun _ => some ⟨1, "slug", "name"⟩) "testsecret" 250 dW
      = (.error (.auth .AUTH_ERROR), [])) ∧
    some "00" ≠ some (calculateHmacSignature "{}" "testsecret") ∧
    AuthCode.AUTH_ERROR ≠ AuthCode.SIGNATURE_INVALID ∧
    ((postLog (fun _ => true) ⟨some "pk",
        some "9D3515542A0F0BD9F5F4CAEE4692C621B9EF29F8038B891B4F5509B04851DBA3", "{}",
        [boomEvent]⟩ (fun _ => some ⟨1, "slug", "name"⟩) "testsecret" 250 dW).1
      = .ok ⟨1, 1⟩) ∧
    "9D3515542A0F0BD9F5F4CAEE4692C621B9EF29F8038B891B4F5509B04851DBA3"
      ≠ calculateHmacSignature "{}" "testsecret" :=
  ⟨rfl, by decide, by decide, rfl, by decide⟩

/-! ## Claim C7: oversized batch handling (refuted as stated) -/

/-- Claim C7 (amended): a POST /api/log whose `events` array has 251 entries
(the default `MAX_EVENTS_PER_POST + 1`) is rejected by the route's Fastify
body schema (`maxItems: 250`) before any handler code runs: HTTP 400 with the
framework code `FST_ERR_VALIDATION` — not `TOO_MANY_EVENTS` — and zero rows
inserted. -/
theorem claim_C7_batch_cap (tsValid : String → Bool) (req : IngestRequest)
    (lookup : String → Option Project) (secret : String) (maxE : Nat) (now : DateTime)
    (h : req.events.length = 251) :
    postLog tsValid req lookup secret maxE now = (.error .fastifySchemaViolation, []) ∧
    errorHttpStatus .fastifySchemaViolation = 400 ∧
    errorCodeString .fastifySchemaViolation = "FST_ERR_VALIDATION" := by
  refine ⟨?_, rfl, rfl⟩
  unfold postLog
  rw [if_pos (by omega)]

/-- Witness for C7 (amended) at a correctly signed 251-event batch. -/
theorem claim_C7_witness :
    postLog (fun _ => true) ⟨some "pk2", some (calculateHmacSignature "B2" "othersecret"),
        "B2", List.replicate 251 boomEvent⟩ (fun _ => some ⟨2, "slug2", "name2"⟩)
        "othersecret" 250 dW
      = (.error .fastifySchemaViolation, []) :=
  (claim_C7_batch_cap (fun _ => true)
    ⟨some "pk2", some (calculateHmacSignature "B2" "othersecret"), "B2",
      List.replicate 251 boomEvent⟩ (fun _ => some ⟨2, "slug2", "name2"⟩)
    "othersecret" 250 dW (by decide)).1

/-- Counterexample to C7 as stated: the correctly signed 251-event batch is
answered with the framework's schema-violation error, whose code is
`FST_ERR_VALIDATION` and not `TOO_MANY_EVENTS`. -/
theorem claim_C7_counterexample :
    postLog (fun _ => true) ⟨some "pk", some (calculateHmacSignature "B" "testsecret"), "B",
        List.replicate 251 boomEvent⟩ (fun _ => some ⟨1, "slug", "name"⟩) "testsecret" 250 dW
      = (.error .fastifySchemaViolation, []) ∧
    AppError.fastifySchemaViolation ≠ AppError.validation .TOO_MANY_EVENTS ∧
    errorCodeString .fastifySchemaViolation ≠ "TOO_MANY_EVENTS" :=
  ⟨rfl, by decide, by decide⟩

end TeknoLogger
